import Mathlib

/-!
Verification of the cloudprober orchestration core (package `cloudprober` and
the `cmd/cloudprober.go` entry point) against its natural-language
specification.

The development shallowly embeds the Go source:

* `metrics.EventMetrics` values are modelled by their stable textual
  serialization (the only part of a record the dispatcher reads is
  `em.String()`).
* The dispatcher goroutine started by `Prober.Start` is modelled as a state
  machine over an explicit list of records (the order in which the single
  consumer drains the `dataChan` channel); its observable behaviour is a
  trace of events (sink writes, surfacer writes).
* Go `int64` arithmetic on the sequence id (`id := time.Now().UnixNano()`,
  `id++`) is modelled on `Int` with explicit two's-complement wrapping.
* Fallible external collaborators (logger construction, config parsing,
  file creation, surfacer/reporter construction, file reads) are oracles
  returning `Except`.
* `Prober.Start`'s wiring (channel creation, goroutine spawns, the
  synchronous `servers.Run` call, the final blocking `select {}`) is
  modelled as the ordered list of effects it performs.
-/

set_option maxRecDepth 8000

namespace Cloudprober

/-! ## Data model -/

/-- One `metrics.EventMetrics` record, modelled by its stable textual
serialization `em.String()` — the only attribute the orchestration core
reads. -/
structure EventMetrics where
  str : String
deriving DecidableEq, Repr

/-- Outcome of a synchronous call to a surfacer's `Write`.  Go's
`surfacers.Surfacer.Write(ctx, em)` returns no value, so from the
dispatcher's point of view a call either returns (possibly having failed
internally) or panics. -/
inductive WriteOutcome
  | returns
  | panics
deriving DecidableEq, Repr

/-- A `surfacers.Surfacer`: for the dispatcher it is exactly its `Write`
capability. -/
structure Surfacer where
  write : EventMetrics → WriteOutcome

/-- A Go `error` value, modelled by its message. -/
abbrev GoErr := String

/-- A `logger.Logger`, identified by the name it was created with. -/
structure Logger where
  name : String
deriving DecidableEq, Repr

/-- One probe specification from the configuration (`pr.c.GetProbe()`
element); the core only inspects its name. -/
structure ProbeDef where
  name : String
deriving DecidableEq, Repr

/-- One surfacer specification from the configuration
(`pr.c.GetSurfacer()` element), opaque to the core. -/
structure SurfacerCfg where
  typeTag : String
deriving DecidableEq, Repr

/-- The RTC-report options (`pr.c.GetRtcReportOptions()`), opaque. -/
structure RtcOpts where
  tag : String
deriving DecidableEq, Repr

/-- One server specification (`pr.c.GetServer()` element), opaque. -/
structure ServerDef where
  tag : String
deriving DecidableEq, Repr

/-- The validated `config.ProberConfig` as consumed by the core, with one
field per getter the core calls. -/
structure ProberConfig where
  outputFile : String
  outputPfx : String
  probeDefs : List ProbeDef
  surfacerCfgs : List SurfacerCfg
  rtcReportOpts : Option RtcOpts
  serverDefs : List ServerDef
  sysvarsIntervalMsec : Int
  sysvarsEnvVar : String

/-- The output sink `pr.outf`: `os.Stdout` by default, or the created
output file. -/
inductive OutFile
  | stdout
  | file (path : String)
deriving DecidableEq, Repr

/-- An `rtcreporter.Reporter`, identified by the options it was built
from. -/
structure Reporter where
  opts : RtcOpts
deriving DecidableEq, Repr

/-- The `Prober` value built by `InitFromConfig` (the `logFailCnt`
diagnostic counter, threaded by reference into loggers, carries no
behaviour visible to the claims and is omitted). -/
structure Prober where
  probes : List (String × ProbeDef)
  c : ProberConfig
  outf : OutFile
  rtcReporter : Option Reporter
  surfacers : List Surfacer

/-! ## Go int64 arithmetic

The sequence id is a Go `int64`; `id++` wraps by two's complement.
`9223372036854775808 = 2^63` and `18446744073709551616 = 2^64`. -/

/-- Two's-complement wrapping of an integer into the `int64` range, the
semantics of Go `int64` addition. -/
def wrap64 (n : Int) : Int :=
  (n + 9223372036854775808) % 18446744073709551616 - 9223372036854775808

lemma wrap64_eq_self (n : Int) (h1 : -9223372036854775808 ≤ n)
    (h2 : n < 9223372036854775808) : wrap64 n = n := by
  unfold wrap64
  omega

lemma wrap64_lb (n : Int) : -9223372036854775808 ≤ wrap64 n := by
  unfold wrap64
  omega

lemma wrap64_ub (n : Int) : wrap64 n < 9223372036854775808 := by
  unfold wrap64
  omega

/-! ## The dispatcher loop

`Prober.Start` spawns one goroutine running

```
id := time.Now().UnixNano()
for {
  em = <-dataChan
  s = em.String()
  fmt.Fprintf(pr.outf, "%s %d %s\n", pr.c.GetOutputPrefix(), id, s)
  id++
  for _, s := range pr.surfacers { s.Write(context.Background(), em) }
}
```

We model a finite run of this loop over the list of records received from
the channel (the channel serializes all producers into one such list), as a
trace of observable events. -/

/-- The exact line produced by `fmt.Fprintf(pr.outf, "%s %d %s\n", ...)`
for output-prefix string `p`, sequence id `i` and serialization `s`. -/
def fmtLine (p : String) (i : Int) (s : String) : String :=
  p ++ " " ++ toString i ++ " " ++ s ++ "\n"

/-- The line form the specification commits to: prefix, space, decimal
sequence id, space, serialized record, newline.  (Written from the spec's
words, to be compared with `fmtLine`, which is written from the source's
format string.) -/
def specLineForm (p : String) (seqId : Int) (ser : String) : String :=
  p ++ " " ++ toString seqId ++ " " ++ ser ++ "\n"

lemma fmtLine_eq_specLineForm (p : String) (i : Int) (s : String) :
    fmtLine p i s = specLineForm p i s := rfl

/-- Observable events of one dispatcher run. `outWrite` records the
`Fprintf` call to the output sink (sequence id, full line, whether the
sink accepted the write); `logError` would record a diagnostic log call
made by the loop (the loop body contains none); `surfWrite` records the
invocation of surfacer number `i`'s `Write` with the unserialized
record. -/
inductive Event
  | outWrite (seqId : Int) (line : String) (sinkOk : Bool)
  | logError (msg : String)
  | surfWrite (i : Nat) (em : EventMetrics)
deriving DecidableEq, Repr

/-- The dispatcher's fixed context: the configured output-prefix string
(`pr.c.GetOutputPrefix()`), the registered surfacers (`pr.surfacers`), and
an oracle giving the sink's success/failure for the k-th `Fprintf`
(the source ignores this result entirely). -/
structure DispatchEnv where
  outPfx : String
  surfacers : List Surfacer
  sinkOk : Nat → Bool

/-- The fan-out loop `for _, s := range pr.surfacers { s.Write(ctx, em) }`,
invoking surfacers in registration order starting at index `j`.  Returns
the surfacer-write events and whether some `Write` panicked; a panic
propagates out of the loop (Go has no `recover` here), so surfacers after
the panicking one are not invoked. -/
def fanOut (surfs : List Surfacer) (j : Nat) (em : EventMetrics) :
    List Event × Bool :=
  match surfs with
  | [] => ([], false)
  | s :: rest =>
    match s.write em with
    | .returns =>
      let r := fanOut rest (j + 1) em
      (Event.surfWrite j em :: r.1, r.2)
    | .panics => ([Event.surfWrite j em], true)

/-- One iteration of the dispatcher loop on record `em`, with current
sequence id `i` and `k` records already written to the sink: serialize,
`Fprintf` one line (result ignored), increment the id with `int64`
wrapping, then fan out to the surfacers.  Result: next id, events in
order, and whether a surfacer panicked. -/
def dispatchStep (env : DispatchEnv) (i : Int) (k : Nat) (em : EventMetrics) :
    Int × List Event × Bool :=
  let s := em.str
  let fo := fanOut env.surfacers 0 em
  (wrap64 (i + 1),
   Event.outWrite i (fmtLine env.outPfx i s) (env.sinkOk k) :: fo.1,
   fo.2)

/-- A finite run of the dispatcher loop over the records drained from the
channel, starting from sequence id `i` (initialized once, from
`time.Now().UnixNano()`).  An unrecovered panic terminates the goroutine,
truncating the run. -/
def dispatchRun (env : DispatchEnv) : Int → Nat → List EventMetrics → List Event × Bool
  | _, _, [] => ([], false)
  | i, k, em :: rest =>
    let st := dispatchStep env i k em
    if st.2.2 then (st.2.1, true)
    else
      let r := dispatchRun env st.1 (k + 1) rest
      (st.2.1 ++ r.1, r.2)

/-- The sequence ids carried by the sink writes of a trace, in order. -/
def outIds : List Event → List Int
  | [] => []
  | .outWrite i _ _ :: rest => i :: outIds rest
  | .logError _ :: rest => outIds rest
  | .surfWrite _ _ :: rest => outIds rest

/-- Whether a trace contains any diagnostic log call. -/
def hasLog (l : List Event) : Bool :=
  l.any fun e => match e with
    | .logError _ => true
    | _ => false

/-- Erase the sink's reported result from a trace, for comparing runs that
differ only in sink behaviour. -/
def scrubRes (e : Event) : Event :=
  match e with
  | .outWrite i line _ => .outWrite i line true
  | e => e

/-! ## The Event Bus

`dataChan := make(chan *metrics.EventMetrics, 1000)` is a Go buffered
channel; we embed the language-defined semantics of a buffered channel:
a send succeeds only while fewer than `cap` records are pending (otherwise
the sender suspends, changing nothing and dropping nothing), and a receive
takes the oldest pending record. -/

/-- A Go buffered channel: fixed capacity and the queue of pending
records. -/
structure GoChan (α : Type) where
  cap : Nat
  buf : List α

/-- A producer's send: enqueues at the tail if there is room, otherwise
the producer suspends (`none`): the channel is unchanged and the record
is not dropped. -/
def chanSend {α : Type} (c : GoChan α) (v : α) : Option (GoChan α) :=
  if c.buf.length < c.cap then some ⟨c.cap, c.buf ++ [v]⟩ else none

/-- The consumer's receive: dequeues the oldest pending record, or
suspends (`none`) when the channel is empty. -/
def chanRecv {α : Type} (c : GoChan α) : Option (α × GoChan α) :=
  match c.buf with
  | [] => none
  | v :: rest => some (v, ⟨c.cap, rest⟩)

/-! ## Prober.Start wiring

`Start` performs, in order: create the channel, spawn the dispatcher
goroutine, spawn the sysvars goroutine, call `servers.Run` synchronously
(no `go`), spawn the RTC reporter goroutine if configured, spawn one
goroutine per probe, then block on `select {}`. -/

/-- Identifier of a concurrent subsystem started or invoked by `Start`. -/
inductive TaskId
  | dispatcher
  | sysvarsExporter
  | serverSubsystem
  | rtcReporterTask
  | probeTask (name : String)
deriving DecidableEq, Repr

/-- Effects performed by the orchestration core, in program order. -/
inductive Effect
  | makeChan (cap : Nat)
  | spawnTask (t : TaskId)
  | callSync (t : TaskId)
  | blockForever
  | sysvarsInitFx
  | createFileFx (path : String)
deriving DecidableEq, Repr

/-- The ordered list of effects performed by `Prober.Start`, one per
statement of the source. -/
def Prober.Start (pr : Prober) : List Effect :=
  Effect.makeChan 1000 ::
  Effect.spawnTask TaskId.dispatcher ::
  Effect.spawnTask TaskId.sysvarsExporter ::
  Effect.callSync TaskId.serverSubsystem ::
  ((match pr.rtcReporter with
    | some _ => [Effect.spawnTask TaskId.rtcReporterTask]
    | none => []) ++
   pr.probes.map (fun p => Effect.spawnTask (TaskId.probeTask p.1)) ++
   [Effect.blockForever])

/-! ## InitFromConfig -/

/-- The external collaborators `InitFromConfig` calls, as fallible
oracles: `logger.New` (keyed by the full logger name), `config.Parse`
applied to this run's config text and sysvars, `os.Create`,
`surfacers.New`, and `rtcreporter.New`. -/
structure InitEnv where
  loggerNew : String → Except GoErr Logger
  configParse : Except GoErr ProberConfig
  createFile : String → Except GoErr Unit
  surfacersNew : SurfacerCfg → Except GoErr Surfacer
  rtcReporterNew : RtcOpts → Except GoErr Reporter

/-- `pr.newLogger(probeName)`: `logger.New` with name
`logsNamePrefix + "." + probeName` where `logsNamePrefix = "cloudprober"`. -/
def Prober_newLogger (env : InitEnv) (probeName : String) : Except GoErr Logger :=
  env.loggerNew ("cloudprober." ++ probeName)

/-- Modelled from the spec: `probes.Init` (package
`github.com/google/cloudprober/probes`) is not under `src/`; only its call
site is.  Per the spec, it builds the live probe map from the probe
specifications, probe names must be unique, and a construction failure
(such as a duplicate probe name) is fatal.  Faithful to the call site
`pr.Probes = probes.Init(...)`, it returns no error value, so a fatal
failure is modelled as process termination (`none`).  `acc` is the map
built so far, in insertion order. -/
def probesInitGo : List (String × ProbeDef) → List ProbeDef →
    Option (List (String × ProbeDef))
  | acc, [] => some acc
  | acc, d :: rest =>
    if d.name ∈ acc.map Prod.fst then none
    else probesInitGo (acc ++ [(d.name, d)]) rest

/-- Modelled from the spec: see `probesInitGo`. -/
def probes_Init (defs : List ProbeDef) : Option (List (String × ProbeDef)) :=
  probesInitGo [] defs

/-- `pr.parseSurfacers()`: build one surfacer per configured surfacer
specification, in declared order; the first `surfacers.New` failure is
returned. -/
def parseSurfacers (env : InitEnv) : List SurfacerCfg → Except GoErr (List Surfacer)
  | [] => .ok []
  | sc :: rest =>
    match env.surfacersNew sc with
    | .error e => .error e
    | .ok s =>
      match parseSurfacers env rest with
      | .error e => .error e
      | .ok l => .ok (s :: l)

/-- The output-sink step of `InitFromConfig`: `os.Stdout` by default, or
`os.Create(pr.c.GetOutputFile())` when an output file is configured. -/
def initOutfStep (env : InitEnv) (c : ProberConfig) : Except GoErr OutFile :=
  if c.outputFile = "" then .ok .stdout
  else
    match env.createFile c.outputFile with
    | .error e => .error e
    | .ok _ => .ok (.file c.outputFile)

/-- Result of `InitFromConfig`: a Prober, a returned error, or process
termination from inside a collaborator (which returns nothing at all). -/
inductive InitResult
  | ok (pr : Prober)
  | err (e : GoErr)
  | exits

/-- Side effects performed by a completed prefix of `InitFromConfig`:
`sysvars.Init` and, when configured, the `os.Create` attempt. -/
def initFx (c : ProberConfig) : List Effect :=
  Effect.sysvarsInitFx ::
    (if c.outputFile = "" then [] else [Effect.createFileFx c.outputFile])

/-- The tail of `InitFromConfig` after the output sink is resolved:
`probes.Init`, `parseSurfacers`, and the optional RTC reporter. -/
def initRest (env : InitEnv) (c : ProberConfig) (outf : OutFile)
    (fx : List Effect) : InitResult × List Effect :=
  match probes_Init c.probeDefs with
  | none => (.exits, fx)
  | some probesMap =>
    match parseSurfacers env c.surfacerCfgs with
    | .error e => (.err e, fx)
    | .ok surfs =>
      match c.rtcReportOpts with
      | none => (.ok ⟨probesMap, c, outf, none, surfs⟩, fx)
      | some opts =>
        match Prober_newLogger env "rtc-reporter" with
        | .error e => (.err e, fx)
        | .ok _ =>
          match env.rtcReporterNew opts with
          | .error e => (.err e, fx)
          | .ok rep => (.ok ⟨probesMap, c, outf, some rep, surfs⟩, fx)

/-- `InitFromConfig`, step for step: sysvars logger, `sysvars.Init`,
`config.Parse`, output sink, `probes.Init`, `parseSurfacers`, optional
RTC reporter.  Also returns the side effects performed, to express that
initialization starts no task and creates no channel. -/
def InitFromConfig (env : InitEnv) : InitResult × List Effect :=
  match Prober_newLogger env "sysvars" with
  | .error e => (.err e, [])
  | .ok _ =>
    match env.configParse with
    | .error e => (.err e, [Effect.sysvarsInitFx])
    | .ok c =>
      match initOutfStep env c with
      | .error e => (.err e, initFx c)
      | .ok outf => initRest env c outf (initFx c)

/-! ## The CLI entry point (cmd/cloudprober.go) -/

/-- The entry point's environment: the `config_file` flag, whether the
host is a GCE instance, the result of reading the `cloudprober_config`
metadata attribute, and the filesystem (`ioutil.ReadFile`). -/
structure CliEnv where
  configFileFlag : String
  onGCE : Bool
  gceMetadataCfg : Except GoErr String
  readFile : String → Except GoErr String

/-- Result of resolving the configuration text: the text, or process
termination via `glog.Exitf`. -/
inductive GetCfgResult
  | ok (cfg : String)
  | exits (msg : String)
deriving DecidableEq, Repr

/-- `configFileToString`: read the file; on failure `glog.Exitf`
terminates the process. -/
def configFileToString (env : CliEnv) (fileName : String) : GetCfgResult :=
  match env.readFile fileName with
  | .error e => .exits e
  | .ok b => .ok b

/-- `getConfig`: the `config_file` flag wins; otherwise on GCE a readable
`cloudprober_config` metadata attribute wins (a metadata read error is
logged and ignored); otherwise the default config file
`/etc/cloudprober.cfg` is read. -/
def getConfig (env : CliEnv) : GetCfgResult :=
  if env.configFileFlag ≠ "" then configFileToString env env.configFileFlag
  else if env.onGCE then
    match env.gceMetadataCfg with
    | .ok cfg => .ok cfg
    | .error _ => configFileToString env "/etc/cloudprober.cfg"
  else configFileToString env "/etc/cloudprober.cfg"

/-! ## Trace lemmas -/

lemma outIds_append (a b : List Event) : outIds (a ++ b) = outIds a ++ outIds b := by
  induction a with
  | nil => simp [outIds]
  | cons e rest ih => cases e <;> simp [outIds, ih]

lemma outIds_fanOut (em : EventMetrics) :
    ∀ (surfs : List Surfacer) (j : Nat), outIds (fanOut surfs j em).1 = [] := by
  intro surfs
  induction surfs with
  | nil => intro j; simp [fanOut, outIds]
  | cons s rest ih =>
    intro j
    cases hw : s.write em <;> simp [fanOut, hw, outIds, ih]

lemma outWrite_not_mem_fanOut (em : EventMetrics) :
    ∀ (surfs : List Surfacer) (j : Nat) (i : Int) (l : String) (r : Bool),
      Event.outWrite i l r ∉ (fanOut surfs j em).1 := by
  intro surfs
  induction surfs with
  | nil => intro j i l r; simp [fanOut]
  | cons s rest ih =>
    intro j i l r
    cases hw : s.write em <;> simp [fanOut, hw, ih]

lemma hasLog_append (a b : List Event) : hasLog (a ++ b) = (hasLog a || hasLog b) := by
  simp [hasLog, List.any_append]

lemma hasLog_fanOut (em : EventMetrics) :
    ∀ (surfs : List Surfacer) (j : Nat), hasLog (fanOut surfs j em).1 = false := by
  intro surfs
  induction surfs with
  | nil => intro j; simp [fanOut, hasLog]
  | cons s rest ih =>
    intro j
    cases hw : s.write em
    · simpa [fanOut, hw, hasLog] using ih (j + 1)
    · simp [fanOut, hw, hasLog]

lemma fanOut_all_returns (em : EventMetrics) :
    ∀ (surfs : List Surfacer) (j : Nat), (∀ s ∈ surfs, s.write em = .returns) →
      fanOut surfs j em =
        ((List.range surfs.length).map (fun i => Event.surfWrite (j + i) em), false) := by
  intro surfs
  induction surfs with
  | nil => intro j _; simp [fanOut]
  | cons s rest ih =>
    intro j h
    have hs : s.write em = .returns := h s (by simp)
    have hr := ih (j + 1) (fun t ht => h t (by simp [ht]))
    simp only [fanOut, hs, hr, List.length_cons, List.range_succ_eq_map,
      List.map_cons, List.map_map, Prod.mk.injEq, List.cons.injEq, Nat.add_zero]
    refine ⟨⟨by trivial, ?_⟩, by trivial⟩
    apply List.map_congr_left
    intro i _
    simp only [Function.comp_apply]
    congr 1
    omega

/-- The sequence ids written during a run: starting id, then successor by
one at every record, truncated only by an unrecovered surfacer panic. -/
lemma dispatchRun_ids (env : DispatchEnv) :
    ∀ (ems : List EventMetrics) (seed : Int) (k : Nat),
      -9223372036854775808 ≤ seed →
      seed + (ems.length : Int) ≤ 9223372036854775808 →
      List.Chain' (fun a b => b = a + 1) (outIds (dispatchRun env seed k ems).1) ∧
      (ems ≠ [] → (outIds (dispatchRun env seed k ems).1).head? = some seed) := by
  intro ems
  induction ems with
  | nil =>
    intro seed k _ _
    exact ⟨by simp [dispatchRun, outIds], fun h => absurd rfl h⟩
  | cons em rest ih =>
    intro seed k h1 h2
    have hstep : outIds (dispatchStep env seed k em).2.1 = [seed] := by
      simp [dispatchStep, outIds, outIds_fanOut]
    by_cases hp : (dispatchStep env seed k em).2.2
    · constructor
      · simp [dispatchRun, hp, hstep]
      · intro _; simp [dispatchRun, hp, hstep]
    · have hrun : (dispatchRun env seed k (em :: rest)).1 =
          (dispatchStep env seed k em).2.1 ++
            (dispatchRun env (dispatchStep env seed k em).1 (k + 1) rest).1 := by
        simp [dispatchRun, hp]
      have hnext : (dispatchStep env seed k em).1 = wrap64 (seed + 1) := rfl
      rcases rest with _ | ⟨em2, rest2⟩
      · rw [hrun]
        constructor
        · simp [outIds_append, hstep, dispatchRun, outIds, outIds_fanOut]
        · intro _; simp [outIds_append, hstep, dispatchRun, outIds, outIds_fanOut]
      · have hlen : (1 : Int) ≤ ((em2 :: rest2).length : Int) := by
          simp
        have hw : wrap64 (seed + 1) = seed + 1 := by
          apply wrap64_eq_self
          · omega
          · have : seed + ((em :: em2 :: rest2).length : Int) =
                seed + 1 + ((em2 :: rest2).length : Int) := by
              simp
              ring
            omega
        have ih2 := ih (seed + 1) (k + 1) (by omega)
          (by
            have : seed + ((em :: em2 :: rest2).length : Int) =
                seed + 1 + ((em2 :: rest2).length : Int) := by
              simp
              ring
            omega)
        rw [hrun, hnext, hw, outIds_append, hstep, List.singleton_append]
        obtain ⟨ihc, ihh⟩ := ih2
        have hh := ihh (by simp)
        constructor
        · rw [List.chain'_cons']
          exact ⟨fun b hb => by rw [hh] at hb; simpa using hb.symm, ihc⟩
        · intro _; simp
lemma outIds_map_surfWrite (l : List Nat) (em : EventMetrics) :
    outIds (l.map fun j => Event.surfWrite j em) = [] := by
  induction l with
  | nil => simp [outIds]
  | cons a t ih => simp [outIds, ih]

/-- The loop body contains no diagnostic log call. -/
lemma hasLog_dispatchStep (env : DispatchEnv) (i : Int) (k : Nat) (em : EventMetrics) :
    hasLog (dispatchStep env i k em).2.1 = false := by
  have hf := hasLog_fanOut em env.surfacers 0
  simp only [dispatchStep]
  simp only [hasLog, List.any_cons] at hf ⊢
  simpa using hf

lemma hasLog_dispatchRun (env : DispatchEnv) :
    ∀ (ems : List EventMetrics) (seed : Int) (k : Nat),
      hasLog (dispatchRun env seed k ems).1 = false := by
  intro ems
  induction ems with
  | nil => intro seed k; simp [dispatchRun, hasLog]
  | cons em rest ih =>
    intro seed k
    by_cases hp : (dispatchStep env seed k em).2.2
    · simpa [dispatchRun, hp] using hasLog_dispatchStep env seed k em
    · simp [dispatchRun, hp, hasLog_append, hasLog_dispatchStep, ih]

/-- The dispatcher's control flow, ids and surfacer deliveries do not
depend on whether sink writes succeed: only the recorded sink result can
differ between two runs with the same prefix and surfacers. -/
lemma dispatchRun_sink_indep (env env' : DispatchEnv)
    (h1 : env'.outPfx = env.outPfx) (h2 : env'.surfacers = env.surfacers) :
    ∀ (ems : List EventMetrics) (seed : Int) (k : Nat),
      (dispatchRun env seed k ems).2 = (dispatchRun env' seed k ems).2 ∧
      (dispatchRun env seed k ems).1.map scrubRes =
        (dispatchRun env' seed k ems).1.map scrubRes := by
  intro ems
  induction ems with
  | nil => intro seed k; exact ⟨rfl, rfl⟩
  | cons em rest ih =>
    intro seed k
    have hfan : fanOut env'.surfacers 0 em = fanOut env.surfacers 0 em := by rw [h2]
    have hpan : (dispatchStep env' seed k em).2.2 = (dispatchStep env seed k em).2.2 := by
      simp [dispatchStep, hfan]
    have hnext : (dispatchStep env' seed k em).1 = (dispatchStep env seed k em).1 := rfl
    have hmap : (dispatchStep env' seed k em).2.1.map scrubRes =
        (dispatchStep env seed k em).2.1.map scrubRes := by
      simp [dispatchStep, hfan, h1, scrubRes]
    obtain ⟨ihp, ihm⟩ := ih (dispatchStep env seed k em).1 (k + 1)
    by_cases hp : (dispatchStep env seed k em).2.2
    · simp [dispatchRun, hp, hpan, hmap]
    · simp [dispatchRun, hp, hpan, hnext, hmap, ihp, ihm]

/-- Every sink write of a run is the formatted line of one of the records
of the run, under the id the dispatcher assigned it. -/
lemma outWrite_mem_dispatchRun (env : DispatchEnv) :
    ∀ (ems : List EventMetrics) (seed : Int) (k : Nat) (i : Int) (line : String) (res : Bool),
      Event.outWrite i line res ∈ (dispatchRun env seed k ems).1 →
      ∃ em ∈ ems, line = fmtLine env.outPfx i em.str := by
  intro ems
  induction ems with
  | nil => intro seed k i line res h; simp [dispatchRun] at h
  | cons em rest ih =>
    intro seed k i line res h
    have hstep : ∀ (hh : Event.outWrite i line res ∈ (dispatchStep env seed k em).2.1),
        ∃ e ∈ em :: rest, line = fmtLine env.outPfx i e.str := by
      intro hh
      simp only [dispatchStep, List.mem_cons, Event.outWrite.injEq] at hh
      rcases hh with ⟨hi, hline, _⟩ | hfan
      · exact ⟨em, by simp, by rw [hline, hi]⟩
      · exact absurd hfan (outWrite_not_mem_fanOut em env.surfacers 0 i line res)
    by_cases hp : (dispatchStep env seed k em).2.2
    · rw [show (dispatchRun env seed k (em :: rest)).1 = (dispatchStep env seed k em).2.1 by
        simp [dispatchRun, hp]] at h
      exact hstep h
    · rw [show (dispatchRun env seed k (em :: rest)).1 = (dispatchStep env seed k em).2.1 ++
          (dispatchRun env (dispatchStep env seed k em).1 (k + 1) rest).1 by
        simp [dispatchRun, hp]] at h
      rcases List.mem_append.mp h with hh | hh
      · exact hstep hh
      · obtain ⟨e, he, hl⟩ := ih _ (k + 1) i line res hh
        exact ⟨e, by simp [he], hl⟩

/-- A failed `probesInitGo` propagates: duplicate names among the
remaining specifications (relative to the accumulated map) force a fatal
result. -/
lemma probesInitGo_eq_none :
    ∀ (defs : List ProbeDef) (acc : List (String × ProbeDef)),
      (acc.map Prod.fst).Nodup →
      ¬ ((acc.map Prod.fst ++ defs.map ProbeDef.name).Nodup) →
      probesInitGo acc defs = none := by
  intro defs
  induction defs with
  | nil =>
    intro acc h1 h2
    exact absurd (by simpa using h1) h2
  | cons d rest ih =>
    intro acc h1 h2
    by_cases hmem : d.name ∈ acc.map Prod.fst
    · simp [probesInitGo, hmem]
    · have h1' : ((acc ++ [(d.name, d)]).map Prod.fst).Nodup := by
        simp only [List.map_append, List.map_cons, List.map_nil]
        rw [List.nodup_append]
        refine ⟨h1, List.nodup_singleton _, ?_⟩
        intro a ha hb
        simp only [List.mem_singleton] at hb
        exact hmem (hb ▸ ha)
      have h2' : ¬ (((acc ++ [(d.name, d)]).map Prod.fst ++ rest.map ProbeDef.name).Nodup) := by
        simp only [List.map_append, List.map_cons, List.map_nil, List.append_assoc,
          List.singleton_append]
        simpa using h2
      simpa [probesInitGo, hmem] using ih _ h1' h2'

/-- Modelled-from-spec consequence: duplicate probe names make
`probes.Init` fatal. -/
lemma probes_Init_dup (defs : List ProbeDef)
    (h : ¬ (defs.map ProbeDef.name).Nodup) : probes_Init defs = none :=
  probesInitGo_eq_none defs [] (by simp) (by simpa using h)

/-- The effects of `InitFromConfig` are at most `sysvars.Init` and the
`os.Create` attempt. -/
lemma initFromConfig_fx (env : InitEnv) :
    (InitFromConfig env).2 = [] ∨ (InitFromConfig env).2 = [Effect.sysvarsInitFx] ∨
    ∃ c, (InitFromConfig env).2 = initFx c := by
  rcases hl : Prober_newLogger env "sysvars" with e | l
  · left; simp [InitFromConfig, hl]
  · rcases hc : env.configParse with e | c
    · right; left; simp [InitFromConfig, hl, hc]
    · rcases ho : initOutfStep env c with e | outf
      · right; right; exact ⟨c, by simp [InitFromConfig, hl, hc, ho]⟩
      · right; right; refine ⟨c, ?_⟩
        have hrw : (InitFromConfig env).2 = (initRest env c outf (initFx c)).2 := by
          simp [InitFromConfig, hl, hc, ho]
        rw [hrw]
        rcases hm : probes_Init c.probeDefs with _ | m
        · simp [initRest, hm]
        · rcases hs : parseSurfacers env c.surfacerCfgs with e | ss
          · simp [initRest, hm, hs]
          · rcases hr : c.rtcReportOpts with _ | opts
            · simp [initRest, hm, hs, hr]
            · rcases hl2 : Prober_newLogger env "rtc-reporter" with e | l2
              · simp [initRest, hm, hs, hr, hl2]
              · rcases hrep : env.rtcReporterNew opts with e | rep
                · simp [initRest, hm, hs, hr, hl2, hrep]
                · simp [initRest, hm, hs, hr, hl2, hrep]

lemma makeChan_not_mem_initFx (c : ProberConfig) (cap : Nat) :
    Effect.makeChan cap ∉ initFx c := by
  unfold initFx
  by_cases h : c.outputFile = "" <;> simp [h]

lemma spawnTask_not_mem_initFx (c : ProberConfig) (t : TaskId) :
    Effect.spawnTask t ∉ initFx c := by
  unfold initFx
  by_cases h : c.outputFile = "" <;> simp [h]

/-! ## Concrete instances used by witnesses and counterexamples -/

/-- A surfacer whose `Write` always returns. -/
def surfOk1 : Surfacer := ⟨fun _ => .returns⟩

/-- A second always-returning surfacer. -/
def surfOk2 : Surfacer := ⟨fun _ => .returns⟩

/-- A surfacer whose `Write` panics on every record. -/
def surfPanic : Surfacer := ⟨fun _ => .panics⟩

/-- Dispatcher context for C1: no surfacers, sink always accepts. -/
def envC1 : DispatchEnv := ⟨"p", [], fun _ => true⟩

/-- Dispatcher context for C2: two surfacers, sink always accepts. -/
def envC2 : DispatchEnv := ⟨"pfx", [surfOk1, surfOk2], fun _ => true⟩

/-! ## C1 — sequence identifiers -/

/-- C1, counterexample.  The sequence id is a Go `int64`; seeded at the
largest `int64` timestamp (`time.Now().UnixNano()` of year 2262), the
second record's identifier wraps to the most negative `int64`: it is not
one greater than the first record's identifier and the sequence decreases,
so the ids of a run are not unconditionally strictly increasing with no
gaps and no repeats. -/
theorem c1_counterexample :
    outIds (dispatchRun envC1 9223372036854775807 0
        [⟨"a"⟩, ⟨"b"⟩]).1 = [9223372036854775807, -9223372036854775808] ∧
    ¬ List.Chain' (fun a b : Int => b = a + 1)
        (outIds (dispatchRun envC1 9223372036854775807 0 [⟨"a"⟩, ⟨"b"⟩]).1) ∧
    (-9223372036854775808 : Int) < 9223372036854775807 := by
  refine ⟨rfl, ?_, by norm_num⟩
  rw [show outIds (dispatchRun envC1 9223372036854775807 0 [⟨"a"⟩, ⟨"b"⟩]).1 =
      [9223372036854775807, -9223372036854775808] from rfl]
  intro hch
  rw [List.chain'_cons] at hch
  exact absurd hch.1 (by omega)

/-- C1 (amended): in a run of the dispatcher loop whose id space does not
overflow `int64` (seed timestamp plus record count at most `2^63`), the
sequence identifier is initialized once at loop start from the timestamp
(the first sink write carries exactly the seed) and every subsequent sink
write carries an identifier exactly 1 greater than the previous one, so
the identifiers are strictly increasing with no gaps and no repeats,
whatever records the producers feed the bus. -/
theorem c1_amended (env : DispatchEnv) (seed : Int) (k : Nat) (ems : List EventMetrics)
    (h1 : -9223372036854775808 ≤ seed)
    (h2 : seed + (ems.length : Int) ≤ 9223372036854775808) :
    List.Chain' (fun a b => b = a + 1) (outIds (dispatchRun env seed k ems).1) ∧
    List.Chain' (fun a b : Int => a < b) (outIds (dispatchRun env seed k ems).1) ∧
    (ems ≠ [] → (outIds (dispatchRun env seed k ems).1).head? = some seed) := by
  obtain ⟨hc, hh⟩ := dispatchRun_ids env ems seed k h1 h2
  exact ⟨hc, hc.imp fun a b hab => by omega, hh⟩

/-- C1 witness: the amended theorem evaluated at a realistic timestamp
seed and a two-record run. -/
theorem c1_witness :
    List.Chain' (fun a b => b = a + 1)
      (outIds (dispatchRun envC1 1700000000000000000 0 [⟨"m1"⟩, ⟨"m2"⟩]).1) ∧
    List.Chain' (fun a b : Int => a < b)
      (outIds (dispatchRun envC1 1700000000000000000 0 [⟨"m1"⟩, ⟨"m2"⟩]).1) ∧
    (([⟨"m1"⟩, ⟨"m2"⟩] : List EventMetrics) ≠ [] →
      (outIds (dispatchRun envC1 1700000000000000000 0 [⟨"m1"⟩, ⟨"m2"⟩]).1).head? =
        some 1700000000000000000) :=
  c1_amended envC1 1700000000000000000 0 [⟨"m1"⟩, ⟨"m2"⟩] (by norm_num) (by norm_num)

/-! ## C2 — fan-out, exactly once, in registration order, after the sink
write -/

/-- C2: for a record received by the dispatcher, provided every
registered surfacer's `Write` returns on it (the surfacer contract), the
iteration's event list is exactly: first the serialized line written to
the output sink, then one `Write` invocation per registered surfacer with
the unserialized record, in registration order — so the record is
delivered to each surfacer exactly once, never zero times, never twice. -/
theorem c2_fanout_exactly_once (env : DispatchEnv) (i : Int) (k : Nat) (em : EventMetrics)
    (h : ∀ s ∈ env.surfacers, s.write em = .returns) :
    (dispatchStep env i k em).2.1 =
      Event.outWrite i (fmtLine env.outPfx i em.str) (env.sinkOk k) ::
        (List.range env.surfacers.length).map (fun j => Event.surfWrite j em) ∧
    (dispatchStep env i k em).2.2 = false := by
  have hf := fanOut_all_returns em env.surfacers 0 h
  constructor
  · simp [dispatchStep, hf]
  · simp [dispatchStep, hf]

/-- C2 witness: the theorem evaluated on a concrete record and two
registered surfacers. -/
theorem c2_witness :
    (dispatchStep envC2 7 0 ⟨"rec"⟩).2.1 =
      Event.outWrite 7 (fmtLine envC2.outPfx 7 (EventMetrics.mk "rec").str)
          (envC2.sinkOk 0) ::
        (List.range envC2.surfacers.length).map
          (fun j => Event.surfWrite j ⟨"rec"⟩) ∧
    (dispatchStep envC2 7 0 ⟨"rec"⟩).2.2 = false :=
  c2_fanout_exactly_once envC2 7 0 ⟨"rec"⟩ (by decide)

/-! ## C4 — isolation of surfacer failures -/

/-- Dispatcher context for the C4 counterexample: three surfacers, the
middle one panics. -/
def envC4 : DispatchEnv := ⟨"p", [surfOk1, surfPanic, surfOk2], fun _ => true⟩

/-- Dispatcher context for the C4 witness: two returning surfacers. -/
def envC4ok : DispatchEnv := ⟨"p", [surfOk1, surfOk2], fun _ => true⟩

/-- C4, counterexample.  The fan-out loop has no `recover`: when the
second of three surfacers panics on the first record, the third surfacer
never receives that record, only one sink line is ever written (the
second record is never processed), and the dispatch goroutine dies — the
failure is not isolated. -/
theorem c4_counterexample :
    Event.surfWrite 2 ⟨"a"⟩ ∉ (dispatchRun envC4 0 0 [⟨"a"⟩, ⟨"b"⟩]).1 ∧
    outIds (dispatchRun envC4 0 0 [⟨"a"⟩, ⟨"b"⟩]).1 = [0] ∧
    (dispatchRun envC4 0 0 [⟨"a"⟩, ⟨"b"⟩]).2 = true := by
  decide

/-- C4 (amended): if a surfacer's `Write` fails synchronously but returns
(does not panic) — the only failure mode the dispatcher can observe,
since `Write` has no return value and its result is ignored — the failure
is isolated: every record of the run is still delivered to every
registered surfacer, one sink line is written per record (the line is
written before fan-out), and the loop processes all subsequent records.
A synchronous panic, by contrast, is not contained (see the
counterexample). -/
theorem c4_amended_nonpanic_isolated (env : DispatchEnv) (ems : List EventMetrics)
    (seed : Int) (k : Nat)
    (h : ∀ em ∈ ems, ∀ s ∈ env.surfacers, s.write em = .returns) :
    (dispatchRun env seed k ems).2 = false ∧
    (outIds (dispatchRun env seed k ems).1).length = ems.length ∧
    (∀ em ∈ ems, ∀ j, j < env.surfacers.length →
      Event.surfWrite j em ∈ (dispatchRun env seed k ems).1) := by
  induction ems generalizing seed k with
  | nil => exact ⟨rfl, by simp [dispatchRun, outIds], by simp⟩
  | cons em rest ih =>
    have hem : ∀ s ∈ env.surfacers, s.write em = .returns := h em (by simp)
    have hf := fanOut_all_returns em env.surfacers 0 hem
    have hstep1 : (dispatchStep env seed k em).2.2 = false := by
      simp [dispatchStep, hf]
    have hstep2 : (dispatchStep env seed k em).2.1 =
        Event.outWrite seed (fmtLine env.outPfx seed em.str) (env.sinkOk k) ::
          (List.range env.surfacers.length).map (fun j => Event.surfWrite j em) := by
      simp [dispatchStep, hf]
    obtain ⟨ihp, ihl, ihm⟩ := ih (dispatchStep env seed k em).1 (k + 1)
      (fun e he s hs => h e (by simp [he]) s hs)
    have hrun : (dispatchRun env seed k (em :: rest)).1 =
        (dispatchStep env seed k em).2.1 ++
          (dispatchRun env (dispatchStep env seed k em).1 (k + 1) rest).1 := by
      simp [dispatchRun, hstep1]
    have hrun2 : (dispatchRun env seed k (em :: rest)).2 =
        (dispatchRun env (dispatchStep env seed k em).1 (k + 1) rest).2 := by
      simp [dispatchRun, hstep1]
    refine ⟨by rw [hrun2]; exact ihp, ?_, ?_⟩
    · rw [hrun, outIds_append, hstep2]
      simp [outIds, outIds_map_surfWrite, ihl]
    · intro e he j hj
      rw [hrun]
      rcases List.mem_cons.mp he with he1 | he2
      · refine List.mem_append_left _ ?_
        rw [hstep2, he1]
        exact List.mem_cons_of_mem _ (List.mem_map.mpr ⟨j, List.mem_range.mpr hj, rfl⟩)
      · exact List.mem_append_right _ (ihm e he2 j hj)

/-- C4 witness: the amended theorem on a two-surfacer, two-record run. -/
theorem c4_witness :
    (dispatchRun envC4ok 0 0 [⟨"a"⟩, ⟨"b"⟩]).2 = false ∧
    (outIds (dispatchRun envC4ok 0 0 [⟨"a"⟩, ⟨"b"⟩]).1).length =
      ([⟨"a"⟩, ⟨"b"⟩] : List EventMetrics).length ∧
    (∀ em ∈ ([⟨"a"⟩, ⟨"b"⟩] : List EventMetrics), ∀ j, j < envC4ok.surfacers.length →
      Event.surfWrite j em ∈ (dispatchRun envC4ok 0 0 [⟨"a"⟩, ⟨"b"⟩]).1) :=
  c4_amended_nonpanic_isolated envC4ok [⟨"a"⟩, ⟨"b"⟩] 0 0 (by decide)

/-! ## C5 — output-sink write failures -/

/-- Dispatcher context for the C5 counterexample: the first sink write
fails, later ones succeed. -/
def envC5 : DispatchEnv := ⟨"p", [], fun k => k != 0⟩

/-- Always-succeeding variant of `envC5`, for comparing runs. -/
def envC5ok : DispatchEnv := ⟨"p", [], fun _ => true⟩

/-- C5, counterexample.  The source ignores `Fprintf`'s result: when the
sink write of the first record fails, nothing is logged (the loop body
contains no log call), although the loop does continue and writes the
second record.  The claim's "logs the error" does not hold. -/
theorem c5_counterexample :
    Event.outWrite 0 (fmtLine "p" 0 "a") false ∈ (dispatchRun envC5 0 0 [⟨"a"⟩, ⟨"b"⟩]).1 ∧
    hasLog (dispatchRun envC5 0 0 [⟨"a"⟩, ⟨"b"⟩]).1 = false ∧
    outIds (dispatchRun envC5 0 0 [⟨"a"⟩, ⟨"b"⟩]).1 = [0, 1] := by
  decide

/-- C5 (amended): a failed sink write is ignored, not logged: the run
emits no log event, and the loop's behaviour — termination status and the
entire trace up to the recorded sink results — is identical to the same
run with an always-succeeding sink; in particular a write failure never
terminates the dispatch loop. -/
theorem c5_amended_failure_ignored_loop_continues (env env' : DispatchEnv)
    (h1 : env'.outPfx = env.outPfx) (h2 : env'.surfacers = env.surfacers)
    (ems : List EventMetrics) (seed : Int) (k : Nat) :
    hasLog (dispatchRun env seed k ems).1 = false ∧
    (dispatchRun env seed k ems).2 = (dispatchRun env' seed k ems).2 ∧
    (dispatchRun env seed k ems).1.map scrubRes =
      (dispatchRun env' seed k ems).1.map scrubRes :=
  ⟨hasLog_dispatchRun env ems seed k,
   (dispatchRun_sink_indep env env' h1 h2 ems seed k).1,
   (dispatchRun_sink_indep env env' h1 h2 ems seed k).2⟩

/-- C5 witness: the amended theorem comparing the failing-sink run with
the succeeding-sink run on a concrete two-record input. -/
theorem c5_witness :
    hasLog (dispatchRun envC5 0 0 [⟨"a"⟩, ⟨"b"⟩]).1 = false ∧
    (dispatchRun envC5 0 0 [⟨"a"⟩, ⟨"b"⟩]).2 = (dispatchRun envC5ok 0 0 [⟨"a"⟩, ⟨"b"⟩]).2 ∧
    (dispatchRun envC5 0 0 [⟨"a"⟩, ⟨"b"⟩]).1.map scrubRes =
      (dispatchRun envC5ok 0 0 [⟨"a"⟩, ⟨"b"⟩]).1.map scrubRes :=
  c5_amended_failure_ignored_loop_continues envC5 envC5ok rfl rfl [⟨"a"⟩, ⟨"b"⟩] 0 0

/-! ## C7 — output line format -/

/-- Dispatcher context for the C7 witness. -/
def envC7 : DispatchEnv := ⟨"pfx", [], fun _ => true⟩

/-- C7: every line the dispatcher writes to the output sink has exactly
the committed form — configured prefix, space, decimal sequence id,
space, the record's stable serialization, newline (`specLineForm`, which
the source's format string `"%s %d %s\n"` realizes verbatim). -/
theorem c7_line_format (env : DispatchEnv) (ems : List EventMetrics) (seed : Int) (k : Nat)
    (i : Int) (line : String) (res : Bool)
    (h : Event.outWrite i line res ∈ (dispatchRun env seed k ems).1) :
    ∃ em ∈ ems, line = specLineForm env.outPfx i em.str := by
  obtain ⟨em, hmem, hline⟩ := outWrite_mem_dispatchRun env ems seed k i line res h
  exact ⟨em, hmem, by rw [hline, fmtLine_eq_specLineForm]⟩

/-- C7 witness: the single sink line of a one-record run has the
committed form. -/
theorem c7_witness :
    ∃ em ∈ ([⟨"a"⟩] : List EventMetrics), "pfx 5 a\n" = specLineForm envC7.outPfx 5 em.str :=
  c7_line_format envC7 [⟨"a"⟩] 5 0 5 "pfx 5 a\n" true (by decide)

/-! ## C3 — all-or-nothing initialization -/

/-- All initialization steps of `InitFromConfig` succeed. -/
def initStepsSucceed (env : InitEnv) : Prop :=
  (∃ l, Prober_newLogger env "sysvars" = .ok l) ∧
  ∃ c, env.configParse = .ok c ∧
    (∃ outf, initOutfStep env c = .ok outf) ∧
    (∃ m, probes_Init c.probeDefs = some m) ∧
    (∃ ss, parseSurfacers env c.surfacerCfgs = .ok ss) ∧
    (∀ opts, c.rtcReportOpts = some opts →
      (∃ l2, Prober_newLogger env "rtc-reporter" = .ok l2) ∧
      ∃ r, env.rtcReporterNew opts = .ok r)

/-- The returned Prober's fields are exactly what the successful steps
produced. -/
def properlyFormed (env : InitEnv) (pr : Prober) : Prop :=
  env.configParse = .ok pr.c ∧
  initOutfStep env pr.c = .ok pr.outf ∧
  probes_Init pr.c.probeDefs = some pr.probes ∧
  parseSurfacers env pr.c.surfacerCfgs = .ok pr.surfacers ∧
  (pr.c.rtcReportOpts = none → pr.rtcReporter = none) ∧
  (∀ opts, pr.c.rtcReportOpts = some opts →
    ∃ r, env.rtcReporterNew opts = .ok r ∧ pr.rtcReporter = some r)

/-- C3: `InitFromConfig` is all-or-nothing.  Each of the five fallible
steps the claim lists (sysvars logger creation, configuration parse,
output-file creation, surfacer construction, runtime-config-reporter
construction — the two reporter sub-steps counted together) returns its
error from `InitFromConfig` when it fails; when every step succeeds, a
fully formed Prober is returned whose fields are the steps' results;
conversely a returned Prober implies every step succeeded; and
initialization performs no channel creation and starts no concurrent
task (the Event Bus exists only once `Prober.Start` runs). -/
theorem c3_all_or_nothing (env : InitEnv) :
    (∀ e, Prober_newLogger env "sysvars" = .error e → (InitFromConfig env).1 = .err e) ∧
    (∀ l e, Prober_newLogger env "sysvars" = .ok l → env.configParse = .error e →
      (InitFromConfig env).1 = .err e) ∧
    (∀ l c e, Prober_newLogger env "sysvars" = .ok l → env.configParse = .ok c →
      initOutfStep env c = .error e → (InitFromConfig env).1 = .err e) ∧
    (∀ l c outf m e, Prober_newLogger env "sysvars" = .ok l → env.configParse = .ok c →
      initOutfStep env c = .ok outf → probes_Init c.probeDefs = some m →
      parseSurfacers env c.surfacerCfgs = .error e → (InitFromConfig env).1 = .err e) ∧
    (∀ l c outf m ss opts e, Prober_newLogger env "sysvars" = .ok l →
      env.configParse = .ok c → initOutfStep env c = .ok outf →
      probes_Init c.probeDefs = some m → parseSurfacers env c.surfacerCfgs = .ok ss →
      c.rtcReportOpts = some opts → Prober_newLogger env "rtc-reporter" = .error e →
      (InitFromConfig env).1 = .err e) ∧
    (∀ l c outf m ss opts l2 e, Prober_newLogger env "sysvars" = .ok l →
      env.configParse = .ok c → initOutfStep env c = .ok outf →
      probes_Init c.probeDefs = some m → parseSurfacers env c.surfacerCfgs = .ok ss →
      c.rtcReportOpts = some opts → Prober_newLogger env "rtc-reporter" = .ok l2 →
      env.rtcReporterNew opts = .error e → (InitFromConfig env).1 = .err e) ∧
    (initStepsSucceed env → ∃ pr, (InitFromConfig env).1 = .ok pr ∧ properlyFormed env pr) ∧
    (∀ pr, (InitFromConfig env).1 = .ok pr → initStepsSucceed env) ∧
    (∀ cap, Effect.makeChan cap ∉ (InitFromConfig env).2) ∧
    (∀ t, Effect.spawnTask t ∉ (InitFromConfig env).2) := by
  refine ⟨?_, ?_, ?_, ?_, ?_, ?_, ?_, ?_, ?_, ?_⟩
  · intro e hl
    simp [InitFromConfig, hl]
  · intro l e hl hc
    simp [InitFromConfig, hl, hc]
  · intro l c e hl hc ho
    simp [InitFromConfig, hl, hc, ho]
  · intro l c outf m e hl hc ho hm hs
    simp [InitFromConfig, hl, hc, ho, initRest, hm, hs]
  · intro l c outf m ss opts e hl hc ho hm hs hr hl2
    simp [InitFromConfig, hl, hc, ho, initRest, hm, hs, hr, hl2]
  · intro l c outf m ss opts l2 e hl hc ho hm hs hr hl2 hrep
    simp [InitFromConfig, hl, hc, ho, initRest, hm, hs, hr, hl2, hrep]
  · rintro ⟨⟨l, hl⟩, c, hc, ⟨outf, ho⟩, ⟨m, hm⟩, ⟨ss, hs⟩, hrtc⟩
    rcases hr : c.rtcReportOpts with _ | opts
    · refine ⟨⟨m, c, outf, none, ss⟩, ?_, ?_⟩
      · simp [InitFromConfig, hl, hc, ho, initRest, hm, hs, hr]
      · exact ⟨hc, ho, hm, hs, fun _ => rfl,
          fun o hor => by rw [hr] at hor; exact Option.noConfusion hor⟩
    · obtain ⟨⟨l2, hl2⟩, r, hrep⟩ := hrtc opts hr
      refine ⟨⟨m, c, outf, some r, ss⟩, ?_, ?_⟩
      · simp [InitFromConfig, hl, hc, ho, initRest, hm, hs, hr, hl2, hrep]
      · refine ⟨hc, ho, hm, hs, fun hn => by rw [hr] at hn; exact Option.noConfusion hn, ?_⟩
        intro o hor
        rw [hr] at hor
        injection hor with hoo
        exact ⟨r, hoo ▸ hrep, rfl⟩
  · intro pr h
    rcases hl : Prober_newLogger env "sysvars" with e | l
    · rw [show (InitFromConfig env).1 = .err e by simp [InitFromConfig, hl]] at h
      exact InitResult.noConfusion h
    · rcases hc : env.configParse with e | c
      · rw [show (InitFromConfig env).1 = .err e by simp [InitFromConfig, hl, hc]] at h
        exact InitResult.noConfusion h
      · rcases ho : initOutfStep env c with e | outf
        · rw [show (InitFromConfig env).1 = .err e by
            simp [InitFromConfig, hl, hc, ho]] at h
          exact InitResult.noConfusion h
        · rcases hm : probes_Init c.probeDefs with _ | m
          · rw [show (InitFromConfig env).1 = .exits by
              simp [InitFromConfig, hl, hc, ho, initRest, hm]] at h
            exact InitResult.noConfusion h
          · rcases hs : parseSurfacers env c.surfacerCfgs with e | ss
            · rw [show (InitFromConfig env).1 = .err e by
                simp [InitFromConfig, hl, hc, ho, initRest, hm, hs]] at h
              exact InitResult.noConfusion h
            · rcases hr : c.rtcReportOpts with _ | opts
              · exact ⟨⟨l, hl⟩, c, hc, ⟨outf, ho⟩, ⟨m, hm⟩, ⟨ss, hs⟩,
                  fun o hor => by rw [hr] at hor; exact Option.noConfusion hor⟩
              · rcases hl2 : Prober_newLogger env "rtc-reporter" with e | l2
                · rw [show (InitFromConfig env).1 = .err e by
                    simp [InitFromConfig, hl, hc, ho, initRest, hm, hs, hr, hl2]] at h
                  exact InitResult.noConfusion h
                · rcases hrep : env.rtcReporterNew opts with e | rep
                  · rw [show (InitFromConfig env).1 = .err e by
                      simp [InitFromConfig, hl, hc, ho, initRest, hm, hs, hr, hl2, hrep]] at h
                    exact InitResult.noConfusion h
                  · refine ⟨⟨l, hl⟩, c, hc, ⟨outf, ho⟩, ⟨m, hm⟩, ⟨ss, hs⟩, ?_⟩
                    intro o hor
                    rw [hr] at hor
                    injection hor with hoo
                    exact ⟨⟨l2, hl2⟩, rep, hoo ▸ hrep⟩
  · intro cap
    rcases initFromConfig_fx env with hfx | hfx | ⟨c, hfx⟩ <;> rw [hfx]
    · simp
    · simp
    · exact makeChan_not_mem_initFx c cap
  · intro t
    rcases initFromConfig_fx env with hfx | hfx | ⟨c, hfx⟩ <;> rw [hfx]
    · simp
    · simp
    · exact spawnTask_not_mem_initFx c t

/-- A returning surfacer used in the initialization instances. -/
def surfW : Surfacer := ⟨fun _ => .returns⟩

/-- A fully valid configuration: two distinct probes, one surfacer, no
RTC reporter, stdout sink. -/
def cfgOk : ProberConfig := ⟨"", "p", [⟨"p1"⟩, ⟨"p2"⟩], [⟨"file"⟩], none, [], 1000, ""⟩

/-- An environment in which every initialization step succeeds. -/
def envOk : InitEnv :=
  ⟨fun n => .ok ⟨n⟩, .ok cfgOk, fun _ => .ok (), fun _ => .ok surfW, fun o => .ok ⟨o⟩⟩

/-- C3 witness: on the all-successful environment, `InitFromConfig`
returns a properly formed Prober. -/
theorem c3_witness :
    ∃ pr, (InitFromConfig envOk).1 = .ok pr ∧ properlyFormed envOk pr :=
  (c3_all_or_nothing envOk).2.2.2.2.2.2.1
    ⟨⟨⟨"cloudprober.sysvars"⟩, rfl⟩, cfgOk, rfl, ⟨.stdout, rfl⟩,
     ⟨[("p1", ⟨"p1"⟩), ("p2", ⟨"p2"⟩)], rfl⟩, ⟨[surfW], rfl⟩,
     fun _ hopts => Option.noConfusion hopts⟩

/-! ## C6 — duplicate probe names -/

/-- A configuration with a duplicate probe name. -/
def cfgDup : ProberConfig := ⟨"", "p", [⟨"p1"⟩, ⟨"p1"⟩], [], none, [], 1000, ""⟩

/-- An environment whose parse yields `cfgDup` and in which every other
collaborator succeeds. -/
def envDup : InitEnv :=
  ⟨fun n => .ok ⟨n⟩, .ok cfgDup, fun _ => .ok (), fun _ => .ok surfW, fun o => .ok ⟨o⟩⟩

/-- C6, counterexample.  With two probe specifications named "p1" and all
other steps succeeding, `probes.Init` is fatal but — having no error
return at the call site — terminates the process: `InitFromConfig` does
not return a descriptive error (it never returns at all), contradicting
the claim that it "returns a non-nil error". -/
theorem c6_counterexample :
    (InitFromConfig envDup).1 = .exits ∧
    (∀ e, (InitFromConfig envDup).1 ≠ .err e) ∧
    (∀ pr, (InitFromConfig envDup).1 ≠ .ok pr) := by
  have h : (InitFromConfig envDup).1 = .exits := rfl
  refine ⟨h, ?_, ?_⟩
  · intro e he
    rw [h] at he
    exact InitResult.noConfusion he
  · intro pr hpr
    rw [h] at hpr
    exact InitResult.noConfusion hpr

/-- C6 (amended): if the probe specifications repeat a name (and the
steps before `probes.Init` succeed), initialization never completes: the
process terminates inside `InitFromConfig`, so no Prober is returned or
started — but the failure is not surfaced as a returned error, because
`probes.Init` has no error return. -/
theorem c6_amended_dup_name_exits (env : InitEnv) (c : ProberConfig)
    (h0 : ∃ l, Prober_newLogger env "sysvars" = .ok l)
    (h1 : env.configParse = .ok c)
    (h2 : ∃ outf, initOutfStep env c = .ok outf)
    (h3 : ¬ ((c.probeDefs.map ProbeDef.name).Nodup)) :
    (InitFromConfig env).1 = .exits ∧
    (∀ pr, (InitFromConfig env).1 ≠ .ok pr) ∧
    (∀ e, (InitFromConfig env).1 ≠ .err e) := by
  obtain ⟨l, hl⟩ := h0
  obtain ⟨outf, ho⟩ := h2
  have hp : probes_Init c.probeDefs = none := probes_Init_dup c.probeDefs h3
  have h : (InitFromConfig env).1 = .exits := by
    simp [InitFromConfig, hl, h1, ho, initRest, hp]
  refine ⟨h, ?_, ?_⟩
  · intro pr hpr
    rw [h] at hpr
    exact InitResult.noConfusion hpr
  · intro e he
    rw [h] at he
    exact InitResult.noConfusion he

/-- C6 witness: the amended theorem on the concrete duplicate-name
environment. -/
theorem c6_witness :
    (InitFromConfig envDup).1 = .exits ∧
    (∀ pr, (InitFromConfig envDup).1 ≠ .ok pr) ∧
    (∀ e, (InitFromConfig envDup).1 ≠ .err e) :=
  c6_amended_dup_name_exits envDup cfgDup ⟨⟨"cloudprober.sysvars"⟩, rfl⟩ rfl
    ⟨.stdout, rfl⟩ (by decide)

/-! ## C8 — the Event Bus is bounded with blocking sends -/

/-- C8: the very first thing `Prober.Start` does is create the Event Bus
with capacity fixed at 1000 pending records; on a bus holding 1000
records a producer's send suspends — the bus is unchanged and the record
is not dropped — and as soon as the consumer's receive frees one slot the
retried send succeeds, enqueuing the record at the tail (order
preserved). -/
theorem c8_bounded_backpressure (pr : Prober) (c : GoChan EventMetrics) (v : EventMetrics)
    (hcap : c.cap = 1000) (hfull : c.buf.length = 1000) :
    (pr.Start).head? = some (Effect.makeChan 1000) ∧
    chanSend c v = none ∧
    (∀ w c2, chanRecv c = some (w, c2) →
      ∃ c3, chanSend c2 v = some c3 ∧ c3.buf = c2.buf ++ [v] ∧ c3.cap = c.cap) := by
  refine ⟨rfl, ?_, ?_⟩
  · simp [chanSend, hcap, hfull]
  · intro w c2 hr
    rcases hb : c.buf with _ | ⟨x, xs⟩
    · rw [hb] at hfull
      simp at hfull
    · simp only [chanRecv, hb, Option.some.injEq, Prod.mk.injEq] at hr
      obtain ⟨hw, hc2⟩ := hr
      have hlen : xs.length = 999 := by
        rw [hb] at hfull
        simpa using hfull
      subst hc2
      refine ⟨⟨c.cap, xs ++ [v]⟩, ?_, rfl, rfl⟩
      simp [chanSend, hlen, hcap]

/-- A valid configuration for Start-wiring instances. -/
def cfgW : ProberConfig := ⟨"", "p", [⟨"p1"⟩], [], none, [], 1000, ""⟩

/-- A concrete idle Prober. -/
def prW : Prober := ⟨[("p1", ⟨"p1"⟩)], cfgW, .stdout, none, []⟩

/-- A channel of capacity 1000 holding 1000 pending records. -/
def chanFull : GoChan EventMetrics := ⟨1000, List.replicate 1000 ⟨"x"⟩⟩

/-- C8 witness: the theorem on a concrete Prober and a concrete full
bus. -/
theorem c8_witness :
    (prW.Start).head? = some (Effect.makeChan 1000) ∧
    chanSend chanFull ⟨"v"⟩ = none ∧
    (∀ w c2, chanRecv chanFull = some (w, c2) →
      ∃ c3, chanSend c2 ⟨"v"⟩ = some c3 ∧ c3.buf = c2.buf ++ [⟨"v"⟩] ∧
        c3.cap = chanFull.cap) :=
  c8_bounded_backpressure prW chanFull ⟨"v"⟩ rfl
    (by rw [show chanFull.buf = List.replicate 1000 ⟨"x"⟩ from rfl]; simp)

/-! ## C9 — how Start runs the server subsystem -/

/-- A concrete Prober with an RTC reporter configured, for C9. -/
def prC9 : Prober := ⟨[("p1", ⟨"p1"⟩)], cfgW, .stdout, some ⟨⟨"rtc"⟩⟩, []⟩

/-- C9, counterexample.  On a concrete Prober, `Start`'s fourth step is a
synchronous call of the server-listener subsystem — `Start` never spawns
it as a concurrent task of its own, unlike the dispatcher, which it does
spawn; so the server subsystem is not started "as an independent
concurrent task, just like the Dispatcher". -/
theorem c9_counterexample :
    (prC9.Start).get? 3 = some (Effect.callSync TaskId.serverSubsystem) ∧
    Effect.spawnTask TaskId.serverSubsystem ∉ prC9.Start ∧
    Effect.spawnTask TaskId.dispatcher ∈ prC9.Start := by
  decide

/-- C9 (amended): `Prober.Start` spawns the Dispatcher and the sysvars
exporter as independent concurrent tasks, then invokes the
server-listener subsystem with a plain synchronous call in its own task
(it never spawns a task for it), and only after that call returns does it
start the runtime-config reporter and the probes (each of those as an
independent concurrent task, at positions after the server call). -/
theorem c9_amended_server_called_synchronously (pr : Prober) :
    (pr.Start).get? 1 = some (Effect.spawnTask TaskId.dispatcher) ∧
    (pr.Start).get? 2 = some (Effect.spawnTask TaskId.sysvarsExporter) ∧
    (pr.Start).get? 3 = some (Effect.callSync TaskId.serverSubsystem) ∧
    Effect.spawnTask TaskId.serverSubsystem ∉ pr.Start ∧
    (∀ j nm, (pr.Start).get? j = some (Effect.spawnTask (TaskId.probeTask nm)) → 3 < j) ∧
    (∀ j, (pr.Start).get? j = some (Effect.spawnTask TaskId.rtcReporterTask) → 3 < j) := by
  refine ⟨rfl, rfl, rfl, ?_, ?_, ?_⟩
  · intro h
    rcases hr : pr.rtcReporter with _ | r <;>
      simp [Prober.Start, hr, List.mem_append, List.mem_map] at h
  · intro j nm hj
    match j with
    | 0 => simp [Prober.Start] at hj
    | 1 => simp [Prober.Start] at hj
    | 2 => simp [Prober.Start] at hj
    | 3 => simp [Prober.Start] at hj
    | (n + 4) => omega
  · intro j hj
    match j with
    | 0 => simp [Prober.Start] at hj
    | 1 => simp [Prober.Start] at hj
    | 2 => simp [Prober.Start] at hj
    | 3 => simp [Prober.Start] at hj
    | (n + 4) => omega

/-- C9 witness: the amended theorem on the concrete Prober. -/
theorem c9_witness :
    (prC9.Start).get? 1 = some (Effect.spawnTask TaskId.dispatcher) ∧
    (prC9.Start).get? 2 = some (Effect.spawnTask TaskId.sysvarsExporter) ∧
    (prC9.Start).get? 3 = some (Effect.callSync TaskId.serverSubsystem) ∧
    Effect.spawnTask TaskId.serverSubsystem ∉ prC9.Start ∧
    (∀ j nm, (prC9.Start).get? j = some (Effect.spawnTask (TaskId.probeTask nm)) → 3 < j) ∧
    (∀ j, (prC9.Start).get? j = some (Effect.spawnTask TaskId.rtcReporterTask) → 3 < j) :=
  c9_amended_server_called_synchronously prC9

/-! ## C10 — configuration-source precedence at the CLI -/

/-- C10: the `config_file` flag wins when non-empty; with an empty flag,
on GCE a readable `cloudprober_config` metadata attribute supplies the
configuration; otherwise (off GCE, or unreadable metadata) the default
file `/etc/cloudprober.cfg` is read; and whenever the chosen file cannot
be read, the process terminates with the error instead of returning any
configuration. -/
theorem c10_config_precedence (env : CliEnv) :
    (env.configFileFlag ≠ "" → getConfig env = configFileToString env env.configFileFlag) ∧
    (env.configFileFlag = "" → env.onGCE = true → ∀ cfg, env.gceMetadataCfg = .ok cfg →
      getConfig env = .ok cfg) ∧
    (env.configFileFlag = "" → env.onGCE = true → ∀ e, env.gceMetadataCfg = .error e →
      getConfig env = configFileToString env "/etc/cloudprober.cfg") ∧
    (env.configFileFlag = "" → env.onGCE = false →
      getConfig env = configFileToString env "/etc/cloudprober.cfg") ∧
    (∀ f e, env.readFile f = .error e →
      configFileToString env f = .exits e ∧ ∀ cfg, configFileToString env f ≠ .ok cfg) := by
  refine ⟨?_, ?_, ?_, ?_, ?_⟩
  · intro h
    simp [getConfig, h]
  · intro h hg cfg hm
    simp [getConfig, h, hg, hm]
  · intro h hg e hm
    simp [getConfig, h, hg, hm]
  · intro h hg
    simp [getConfig, h, hg]
  · intro f e hf
    refine ⟨by simp [configFileToString, hf], ?_⟩
    intro cfg hcfg
    rw [show configFileToString env f = .exits e by simp [configFileToString, hf]] at hcfg
    exact GetCfgResult.noConfusion hcfg

/-- A CLI environment with the `config_file` flag set, for the C10
witness. -/
def envCli : CliEnv :=
  ⟨"/x.cfg", false, .error "no metadata",
   fun f => if f = "/x.cfg" then .ok "cfgtext" else .error "enoent"⟩

/-- C10 witness: with a non-empty flag the flagged file is read. -/
theorem c10_witness :
    getConfig envCli = configFileToString envCli envCli.configFileFlag :=
  (c10_config_precedence envCli).1 (by decide)

end Cloudprober
